import Mathlib

/-!
Shallow embedding of `src/output/clickhouse.go` (package `output` of
clickhouse_sinker): the batch writer `write`, the failure classifier
`shouldReconnect`, the retry loop `loopWrite`, and the schema/statement
construction of `initSchema`.  External collaborators (the connection
pool, the driver, the metrics counters) are modelled by an explicit
per-attempt environment of call outcomes and by effect fields recorded
in the result structures.
-/

namespace Output

/-- A Go `error` value as it is observed by this file: its message string
(`Error()`), and whether `errors.Is(err, context.Canceled)` holds. -/
structure ChError where
  msg : String
  canceled : Bool
deriving DecidableEq

/-- `errors.Wrap(err, "")` from pkg/errors: the message gains the `": "`
separator in front of the cause's message, and `errors.Is` still sees the
wrapped cause, so cancellation is preserved. -/
def wrapErr (e : ChError) : ChError :=
  { msg := ": " ++ e.msg, canceled := e.canceled }

/-- Boolean test that `p` is a prefix of `s` (over character lists). -/
def isPreB : List Char → List Char → Bool
  | [], _ => true
  | _ :: _, [] => false
  | a :: p, b :: s => a == b && isPreB p s

/-- Boolean test that `sub` occurs as a contiguous substring of `s`:
the semantics of Go's `strings.Contains`. -/
def hasSub : List Char → List Char → Bool
  | sub, [] => sub.isEmpty
  | sub, c :: rest => isPreB sub (c :: rest) || hasSub sub rest

/-- `strings.Contains(s, sub)`. -/
def strContains (s sub : String) : Bool :=
  hasSub sub.data s.data

/-- `shouldReconnect` from clickhouse.go: the error message contains
"connection refused" or "bad connection". -/
def shouldReconnect (e : ChError) : Bool :=
  strContains e.msg "connection refused" || strContains e.msg "bad connection"

theorem isPreB_iff (p s : List Char) : isPreB p s = true ↔ p <+: s := by
  induction p generalizing s with
  | nil => simp [isPreB]
  | cons a p ih =>
    cases s with
    | nil => simp [isPreB, List.prefix_nil]
    | cons b s =>
      simp [isPreB, List.cons_prefix_cons, ih, Bool.and_eq_true, beq_iff_eq]

theorem hasSub_iff (sub s : List Char) : hasSub sub s = true ↔ sub <:+: s := by
  induction s with
  | nil => simp [hasSub, List.infix_nil, List.isEmpty_iff]
  | cons c rest ih =>
    simp [hasSub, Bool.or_eq_true, isPreB_iff, ih, List.infix_cons_iff]

/-- C6: `shouldReconnect(err)` is a pure predicate returning `true` iff the
error's message contains the substring "connection refused" or the substring
"bad connection" (case-sensitive containment), and `false` otherwise. -/
theorem shouldReconnect_iff_substring (e : ChError) :
    shouldReconnect e = true ↔
      ("connection refused".toList <:+: e.msg.toList ∨
       "bad connection".toList <:+: e.msg.toList) := by
  simp [shouldReconnect, strContains, Bool.or_eq_true, hasSub_iff, String.toList]

/-- One element of `Batch.MsgRows`: the bound value tuple, or `none` when the
row is absent (`msgRow.Row == nil`) and is skipped during execution. -/
structure MsgRow where
  row : Option (List Nat)
deriving DecidableEq

/-- `model.Batch` as used by this file: the rows, the declared `RealSize`,
and the `BatchIdx` used to pick the connection slot. -/
structure Batch where
  msgRows : List MsgRow
  realSize : Nat
  batchIdx : Nat
deriving DecidableEq

/-- Outcomes of the external driver calls made during one `write` attempt:
`none` means the call succeeds.  `execErr i` is the outcome of
`stmt.Exec` on the row at position `i` of `msgRows`.  `reconnectErr` is the
result of `conn.ReConnect()`; the source discards it (`_ =`), so `write`
never reads this field. -/
structure AttemptEnv where
  beginErr : Option ChError
  prepareErr : Option ChError
  execErr : Nat → Option ChError
  commitErr : Option ChError
  reconnectErr : Option ChError

/-- Observable result of one `write` attempt: the returned error and the
side effects performed (connection acquisition, transaction begin, statement
preparation, row executions, the `numErr` tally, commit, `conn.ReConnect()`
calls, `ClickhouseReconnectTotal` increments, and the amount added to
`FlushMsgsTotal`). -/
structure WriteResult where
  err : Option ChError
  connAcquired : Bool
  beganTx : Bool
  prepared : Bool
  rowsExecuted : Nat
  numErr : Nat
  committed : Bool
  reconnectCalls : Nat
  reconnectIncs : Nat
  flushedAdded : Nat
deriving DecidableEq

/-- The row-execution loop of `write`: iterates `msgRows` in order carrying
the Go variables `err` (reassigned by every executed row, wrapped when the
execution fails), `numErr`, and the count of rows actually executed. -/
def execRowsGo (exec : Nat → Option ChError) :
    List MsgRow → Nat → Option ChError → Nat → Nat → Option ChError × Nat × Nat
  | [], _, err, numErr, executed => (err, numErr, executed)
  | r :: rest, i, err, numErr, executed =>
    match r.row with
    | none => execRowsGo exec rest (i + 1) err numErr executed
    | some _ =>
      match exec i with
      | none => execRowsGo exec rest (i + 1) none numErr (executed + 1)
      | some e => execRowsGo exec rest (i + 1) (some (wrapErr e)) (numErr + 1) (executed + 1)

/-- The row loop started as in the source: `err` is nil after `tx.Prepare`
succeeded, `numErr` is zero, no row executed yet. -/
def execRows (exec : Nat → Option ChError) (rows : List MsgRow) :
    Option ChError × Nat × Nat :=
  execRowsGo exec rows 0 none 0 0

/-- `ClickHouse.write` from clickhouse.go, as a function of the driver-call
outcomes for this attempt. -/
def write (env : AttemptEnv) (batch : Batch) : WriteResult :=
  if batch.msgRows.length = 0 then
    { err := none, connAcquired := false, beganTx := false, prepared := false,
      rowsExecuted := 0, numErr := 0, committed := false,
      reconnectCalls := 0, reconnectIncs := 0, flushedAdded := 0 }
  else
    match env.beginErr with
    | some e =>
      { err := some e, connAcquired := true, beganTx := false, prepared := false,
        rowsExecuted := 0, numErr := 0, committed := false,
        reconnectCalls := if shouldReconnect e then 1 else 0,
        reconnectIncs := if shouldReconnect e then 1 else 0, flushedAdded := 0 }
    | none =>
      match env.prepareErr with
      | some e =>
        { err := some e, connAcquired := true, beganTx := true, prepared := false,
          rowsExecuted := 0, numErr := 0, committed := false,
          reconnectCalls := if shouldReconnect e then 1 else 0,
          reconnectIncs := if shouldReconnect e then 1 else 0, flushedAdded := 0 }
      | none =>
        match execRows env.execErr batch.msgRows with
        | (some e, numErr, executed) =>
          { err := some e, connAcquired := true, beganTx := true, prepared := true,
            rowsExecuted := executed, numErr := numErr, committed := false,
            reconnectCalls := 0, reconnectIncs := 0, flushedAdded := 0 }
        | (none, numErr, executed) =>
          match env.commitErr with
          | some e =>
            { err := some (wrapErr e), connAcquired := true, beganTx := true, prepared := true,
              rowsExecuted := executed, numErr := numErr, committed := false,
              reconnectCalls := if shouldReconnect (wrapErr e) then 1 else 0,
              reconnectIncs := if shouldReconnect (wrapErr e) then 1 else 0, flushedAdded := 0 }
          | none =>
            { err := none, connAcquired := true, beganTx := true, prepared := true,
              rowsExecuted := executed, numErr := numErr, committed := true,
              reconnectCalls := 0, reconnectIncs := 0, flushedAdded := batch.realSize }

/-- C5: for a batch with zero rows, `write` returns success immediately with
no connection acquired, no transaction begun, no statement prepared, no row
executed, and no counter touched. -/
theorem write_empty_batch_noop (env : AttemptEnv) (batch : Batch)
    (h : batch.msgRows = []) :
    write env batch =
      { err := none, connAcquired := false, beganTx := false, prepared := false,
        rowsExecuted := 0, numErr := 0, committed := false,
        reconnectCalls := 0, reconnectIncs := 0, flushedAdded := 0 } := by
  simp [write, h]

/-- A silent environment where every driver call succeeds. -/
def envAllOk : AttemptEnv :=
  { beginErr := none, prepareErr := none, execErr := fun _ => none,
    commitErr := none, reconnectErr := none }

/-- Witness for C5 at the concrete empty batch. -/
theorem write_empty_batch_noop_witness :
    write envAllOk { msgRows := [], realSize := 9, batchIdx := 0 } =
      { err := none, connAcquired := false, beganTx := false, prepared := false,
        rowsExecuted := 0, numErr := 0, committed := false,
        reconnectCalls := 0, reconnectIncs := 0, flushedAdded := 0 } :=
  write_empty_batch_noop envAllOk { msgRows := [], realSize := 9, batchIdx := 0 } rfl

/-- C10: if beginning the transaction fails, `write` returns that very error
with no statement prepared, no row executed, no commit, and nothing added to
the flushed counter; only the reconnect collaborators may be touched (once,
and only when the classifier recognizes the error). -/
theorem write_begin_error_frame (env : AttemptEnv) (batch : Batch) (e : ChError)
    (hne : batch.msgRows ≠ []) (h : env.beginErr = some e) :
    write env batch =
      { err := some e, connAcquired := true, beganTx := false, prepared := false,
        rowsExecuted := 0, numErr := 0, committed := false,
        reconnectCalls := if shouldReconnect e then 1 else 0,
        reconnectIncs := if shouldReconnect e then 1 else 0, flushedAdded := 0 } := by
  have hlen : ¬ batch.msgRows.length = 0 := by
    simpa [List.length_eq_zero] using hne
  simp [write, h, hlen]

/-- An environment whose `Begin` fails with a non-reconnectable error. -/
def envBeginBoom : AttemptEnv :=
  { beginErr := some { msg := "code: 60, message: table default.x does not exist", canceled := false },
    prepareErr := none, execErr := fun _ => none, commitErr := none, reconnectErr := none }

/-- A one-row batch. -/
def batchOneRow : Batch :=
  { msgRows := [{ row := some [1, 2] }], realSize := 1, batchIdx := 0 }

/-- Witness for C10 at a concrete begin failure. -/
theorem write_begin_error_frame_witness :
    write envBeginBoom batchOneRow =
      { err := some { msg := "code: 60, message: table default.x does not exist", canceled := false },
        connAcquired := true, beganTx := false, prepared := false,
        rowsExecuted := 0, numErr := 0, committed := false,
        reconnectCalls := if shouldReconnect { msg := "code: 60, message: table default.x does not exist", canceled := false } then 1 else 0,
        reconnectIncs := if shouldReconnect { msg := "code: 60, message: table default.x does not exist", canceled := false } then 1 else 0,
        flushedAdded := 0 } :=
  write_begin_error_frame envBeginBoom batchOneRow
    { msg := "code: 60, message: table default.x does not exist", canceled := false }
    (by decide) rfl

/-- Terminal state of the retry loop: `running` marks that the loop body
would continue past the modelled number of iterations (the source loop has
no bound of its own). -/
inductive LoopOutcome where
  | success
  | cancelledQuit
  | gaveUp
  | running
deriving DecidableEq

/-- Observable result of `loopWrite`: how many `write` attempts ran, the
total `ClickhouseReconnectTotal` increments, how often the callback fired,
the total added to `FlushMsgsErrorTotal` (loss) and to `FlushMsgsTotal`
(flushed), the number of retry sleeps, the value of the `times` counter when
the loop ended, and which exit was taken. -/
structure LoopResult where
  attempts : Nat
  reconnectIncs : Nat
  callbackCalls : Nat
  lossAdded : Nat
  flushedTotal : Nat
  sleeps : Nat
  timesRemaining : Int
  outcome : LoopOutcome
deriving DecidableEq

/-- The body of `ClickHouse.loopWrite`, iteration by iteration: attempt `k`
uses environment `envs k`; `times` is the Go `times` variable (an `int`,
seeded from `RetryTimes` and decremented on every non-cancelled failure);
`fuel` bounds how many iterations of the unbounded source loop are unrolled. -/
def loopWriteGo (envs : Nat → AttemptEnv) (batch : Batch) :
    Nat → Nat → Int → LoopResult
  | 0, _, times =>
    { attempts := 0, reconnectIncs := 0, callbackCalls := 0, lossAdded := 0,
      flushedTotal := 0, sleeps := 0, timesRemaining := times, outcome := .running }
  | fuel + 1, k, times =>
    let w := write (envs k) batch
    match w.err with
    | none =>
      { attempts := 1, reconnectIncs := w.reconnectIncs, callbackCalls := 1, lossAdded := 0,
        flushedTotal := w.flushedAdded, sleeps := 0, timesRemaining := times,
        outcome := .success }
    | some e =>
      if e.canceled then
        { attempts := 1, reconnectIncs := w.reconnectIncs, callbackCalls := 0, lossAdded := 0,
          flushedTotal := w.flushedAdded, sleeps := 0, timesRemaining := times,
          outcome := .cancelledQuit }
      else
        if times - 1 > 0 then
          { attempts := 1, reconnectIncs := w.reconnectIncs, callbackCalls := 0,
            lossAdded := batch.realSize, flushedTotal := w.flushedAdded, sleeps := 0,
            timesRemaining := times - 1, outcome := .gaveUp }
        else
          let r := loopWriteGo envs batch fuel (k + 1) (times - 1)
          { attempts := r.attempts + 1, reconnectIncs := r.reconnectIncs + w.reconnectIncs,
            callbackCalls := r.callbackCalls, lossAdded := r.lossAdded,
            flushedTotal := r.flushedTotal + w.flushedAdded, sleeps := r.sleeps + 1,
            timesRemaining := r.timesRemaining, outcome := r.outcome }

/-- `ClickHouse.loopWrite`: the loop starts at attempt 0 with `times`
seeded from the configured `RetryTimes`. -/
def loopWrite (envs : Nat → AttemptEnv) (batch : Batch) (retryTimes : Int)
    (fuel : Nat) : LoopResult :=
  loopWriteGo envs batch fuel 0 retryTimes

/-- An environment whose `Begin` always fails with a connection-refused
error that the classifier recognizes. -/
def envConnRefused : AttemptEnv :=
  { beginErr := some { msg := "dial tcp 127.0.0.1:9000: connect: connection refused", canceled := false },
    prepareErr := none, execErr := fun _ => none, commitErr := none, reconnectErr := none }

/-- A one-row batch with declared `RealSize` 5. -/
def batchLoss : Batch :=
  { msgRows := [{ row := some [3] }], realSize := 5, batchIdx := 0 }

/-- C1: evaluation of the retry loop on persistently connection-broken
attempts.  With a retry budget of 2 the loop records the batch as lost and
gives up after a single write attempt while one retry remains
(`timesRemaining = 1`), instead of exhausting the budget first; with a
retry budget of 1 it never reaches the give-up branch and keeps attempting
(6 write attempts and 6 reconnects within 6 unrolled iterations), exceeding
the budget.  The callback is never invoked on these paths. -/
theorem loopWrite_retry_budget_inverted :
    (loopWrite (fun _ => envConnRefused) batchLoss 2 10).outcome = LoopOutcome.gaveUp ∧
    (loopWrite (fun _ => envConnRefused) batchLoss 2 10).attempts = 1 ∧
    (loopWrite (fun _ => envConnRefused) batchLoss 2 10).timesRemaining = 1 ∧
    (loopWrite (fun _ => envConnRefused) batchLoss 2 10).lossAdded = 5 ∧
    (loopWrite (fun _ => envConnRefused) batchLoss 2 10).callbackCalls = 0 ∧
    (loopWrite (fun _ => envConnRefused) batchLoss 2 10).reconnectIncs = 1 ∧
    (loopWrite (fun _ => envConnRefused) batchLoss 1 6).outcome = LoopOutcome.running ∧
    (loopWrite (fun _ => envConnRefused) batchLoss 1 6).attempts = 6 ∧
    (loopWrite (fun _ => envConnRefused) batchLoss 1 6).reconnectIncs = 6 ∧
    (loopWrite (fun _ => envConnRefused) batchLoss 1 6).callbackCalls = 0 := by
  decide

/-- An environment in which the first row's execution fails with a row-level
error while every other driver call succeeds. -/
def envFirstRowFails : AttemptEnv :=
  { beginErr := none, prepareErr := none,
    execErr := fun i => if i = 0 then some { msg := "code: 1002: invalid value", canceled := false } else none,
    commitErr := none, reconnectErr := none }

/-- A two-row batch with declared `RealSize` 2. -/
def batchTwoRows : Batch :=
  { msgRows := [{ row := some [1] }, { row := some [2] }], realSize := 2, batchIdx := 0 }

/-- C2: evaluation of `write` on a batch whose first row fails and whose
second (last) row succeeds: the loop does run both rows and tallies one
error, but because the Go `err` variable is overwritten by the last
successful `stmt.Exec`, the attempt commits the transaction, adds the
declared size to the flushed counter, and returns success. -/
theorem write_commits_despite_row_failure :
    (write envFirstRowFails batchTwoRows).numErr = 1 ∧
    (write envFirstRowFails batchTwoRows).rowsExecuted = 2 ∧
    (write envFirstRowFails batchTwoRows).committed = true ∧
    (write envFirstRowFails batchTwoRows).err = none ∧
    (write envFirstRowFails batchTwoRows).flushedAdded = 2 := by
  decide

/-- C4: whenever the first write attempt returns an error recognized as
cancellation, the loop terminates at once: exactly one attempt, no callback,
no loss recorded, no sleep, and the `times` budget not decremented. -/
theorem loopWrite_cancellation_exits (envs : Nat → AttemptEnv) (batch : Batch)
    (times : Int) (fuel : Nat) (e : ChError)
    (h : (write (envs 0) batch).err = some e) (hc : e.canceled = true) :
    loopWrite envs batch times (fuel + 1) =
      { attempts := 1, reconnectIncs := (write (envs 0) batch).reconnectIncs,
        callbackCalls := 0, lossAdded := 0,
        flushedTotal := (write (envs 0) batch).flushedAdded, sleeps := 0,
        timesRemaining := times, outcome := .cancelledQuit } := by
  simp [loopWrite, loopWriteGo, h, hc]

/-- An environment whose `Begin` fails because the enclosing context was
cancelled. -/
def envCanceled : AttemptEnv :=
  { beginErr := some { msg := "context canceled", canceled := true },
    prepareErr := none, execErr := fun _ => none, commitErr := none, reconnectErr := none }

/-- Witness for C4 at a concrete cancelled attempt. -/
theorem loopWrite_cancellation_exits_witness :
    loopWrite (fun _ => envCanceled) batchOneRow 5 (2 + 1) =
      { attempts := 1,
        reconnectIncs := (write ((fun _ => envCanceled) 0) batchOneRow).reconnectIncs,
        callbackCalls := 0, lossAdded := 0,
        flushedTotal := (write ((fun _ => envCanceled) 0) batchOneRow).flushedAdded,
        sleeps := 0, timesRemaining := 5, outcome := .cancelledQuit } :=
  loopWrite_cancellation_exits (fun _ => envCanceled) batchOneRow 5 2
    { msg := "context canceled", canceled := true } (by decide) rfl

theorem execRowsGo_all_ok (exec : Nat → Option ChError) (rows : List MsgRow) :
    ∀ (i numErr executed : Nat),
      (∀ (j : Nat) (hj : j < rows.length),
        (rows.get ⟨j, hj⟩).row.isSome = true → exec (i + j) = none) →
      (execRowsGo exec rows i none numErr executed).1 = none := by
  induction rows with
  | nil => intro i numErr executed _; rfl
  | cons r rest ih =>
    intro i numErr executed h
    have hshift : ∀ (j : Nat) (hj : j < rest.length),
        (rest.get ⟨j, hj⟩).row.isSome = true → exec (i + 1 + j) = none := by
      intro j hj hsome
      have hj' : j + 1 < (r :: rest).length := by
        simpa using Nat.succ_lt_succ hj
      have hx := h (j + 1) hj' hsome
      have harg : i + 1 + j = i + (j + 1) := by omega
      rw [harg]
      exact hx
    cases hr : r.row with
    | none =>
      simp only [execRowsGo, hr]
      exact ih (i + 1) numErr executed hshift
    | some v =>
      have h0 : exec i = none := by
        have hx := h 0 (by simp) (by simp [hr])
        simpa using hx
      simp only [execRowsGo, hr, h0]
      exact ih (i + 1) numErr (executed + 1) hshift

/-- On an attempt where every driver call relevant to the batch succeeds,
`write` returns success, commits, and adds exactly the batch's declared
`realSize` to the flushed counter. -/
theorem write_success (env : AttemptEnv) (batch : Batch)
    (hne : batch.msgRows ≠ [])
    (hb : env.beginErr = none) (hp : env.prepareErr = none)
    (hex : ∀ (j : Nat) (hj : j < batch.msgRows.length),
        (batch.msgRows.get ⟨j, hj⟩).row.isSome = true → env.execErr j = none)
    (hcm : env.commitErr = none) :
    (write env batch).err = none ∧
    (write env batch).flushedAdded = batch.realSize ∧
    (write env batch).committed = true := by
  have hlen : ¬ batch.msgRows.length = 0 := by
    simpa [List.length_eq_zero] using hne
  have hfst : (execRows env.execErr batch.msgRows).1 = none := by
    refine execRowsGo_all_ok env.execErr batch.msgRows 0 0 0 ?_
    intro j hj hsome
    simpa using hex j hj hsome
  rcases hrw : execRows env.execErr batch.msgRows with ⟨fst, nE, ex⟩
  rw [hrw] at hfst
  simp only at hfst
  subst hfst
  simp [write, hlen, hb, hp, hcm, hrw]

/-- C3: when the first attempt succeeds (every non-absent row executes
without error and the commit succeeds), the retry loop invokes the
completion callback exactly once, the flushed counter grows by exactly the
batch's declared `realSize`, only one attempt runs, and nothing is recorded
as lost. -/
theorem loopWrite_success_callback_once (envs : Nat → AttemptEnv)
    (batch : Batch) (times : Int) (fuel : Nat)
    (hne : batch.msgRows ≠ [])
    (hb : (envs 0).beginErr = none) (hp : (envs 0).prepareErr = none)
    (hex : ∀ (j : Nat) (hj : j < batch.msgRows.length),
        (batch.msgRows.get ⟨j, hj⟩).row.isSome = true → (envs 0).execErr j = none)
    (hcm : (envs 0).commitErr = none) :
    (loopWrite envs batch times (fuel + 1)).callbackCalls = 1 ∧
    (loopWrite envs batch times (fuel + 1)).flushedTotal = batch.realSize ∧
    (loopWrite envs batch times (fuel + 1)).attempts = 1 ∧
    (loopWrite envs batch times (fuel + 1)).lossAdded = 0 ∧
    (loopWrite envs batch times (fuel + 1)).outcome = LoopOutcome.success := by
  obtain ⟨he, hf, _⟩ := write_success (envs 0) batch hne hb hp hex hcm
  simp [loopWrite, loopWriteGo, he, hf]

/-- A three-element batch with an absent middle row and declared size 7. -/
def batchThree : Batch :=
  { msgRows := [{ row := some [1] }, { row := none }, { row := some [2] }],
    realSize := 7, batchIdx := 1 }

/-- Witness for C3 at a concrete all-success attempt. -/
theorem loopWrite_success_callback_once_witness :
    (loopWrite (fun _ => envAllOk) batchThree 3 (0 + 1)).callbackCalls = 1 ∧
    (loopWrite (fun _ => envAllOk) batchThree 3 (0 + 1)).flushedTotal = batchThree.realSize ∧
    (loopWrite (fun _ => envAllOk) batchThree 3 (0 + 1)).attempts = 1 ∧
    (loopWrite (fun _ => envAllOk) batchThree 3 (0 + 1)).lossAdded = 0 ∧
    (loopWrite (fun _ => envAllOk) batchThree 3 (0 + 1)).outcome = LoopOutcome.success :=
  loopWrite_success_callback_once (fun _ => envAllOk) batchThree 3 0
    (by decide) rfl rfl (fun _ _ _ => rfl) rfl

/-- An environment whose only failure is a connection-broken error on the
single row execution. -/
def envRowBadConn : AttemptEnv :=
  { beginErr := none, prepareErr := none,
    execErr := fun _ => some { msg := "driver: bad connection", canceled := false },
    commitErr := none, reconnectErr := none }

/-- C9 counterexample: a write attempt that fails at row execution with an
error the classifier recognizes as connection-broken performs no reconnect
at all and leaves the reconnect counter untouched. -/
theorem write_no_reconnect_on_row_error :
    (write envRowBadConn batchOneRow).err =
      some { msg := ": driver: bad connection", canceled := false } ∧
    shouldReconnect { msg := ": driver: bad connection", canceled := false } = true ∧
    (write envRowBadConn batchOneRow).reconnectCalls = 0 ∧
    (write envRowBadConn batchOneRow).reconnectIncs = 0 := by
  decide

/-- C9 (amended): reconnect handling of `write`, split by failure site.  A
begin or prepare failure reconnects exactly once iff the raw error is
recognized; a commit failure reconnects exactly once iff the wrapped error
is recognized; a row-execution failure never reconnects.  The returned error
is always the failing call's own error — `reconnectErr` never appears, so
the reconnect call's result is discarded. -/
theorem write_reconnect_sites (env : AttemptEnv) (batch : Batch) (e : ChError)
    (hne : batch.msgRows ≠ []) :
    (env.beginErr = some e →
      (write env batch).err = some e ∧
      (write env batch).reconnectCalls = (if shouldReconnect e then 1 else 0) ∧
      (write env batch).reconnectIncs = (if shouldReconnect e then 1 else 0)) ∧
    (env.beginErr = none → env.prepareErr = some e →
      (write env batch).err = some e ∧
      (write env batch).reconnectCalls = (if shouldReconnect e then 1 else 0) ∧
      (write env batch).reconnectIncs = (if shouldReconnect e then 1 else 0)) ∧
    (env.beginErr = none → env.prepareErr = none →
      (execRows env.execErr batch.msgRows).1 = none → env.commitErr = some e →
      (write env batch).err = some (wrapErr e) ∧
      (write env batch).reconnectCalls = (if shouldReconnect (wrapErr e) then 1 else 0) ∧
      (write env batch).reconnectIncs = (if shouldReconnect (wrapErr e) then 1 else 0)) ∧
    (env.beginErr = none → env.prepareErr = none →
      (execRows env.execErr batch.msgRows).1 = some e →
      (write env batch).err = some e ∧
      (write env batch).reconnectCalls = 0 ∧
      (write env batch).reconnectIncs = 0) := by
  have hlen : ¬ batch.msgRows.length = 0 := by
    simpa [List.length_eq_zero] using hne
  refine ⟨?_, ?_, ?_, ?_⟩
  · intro hb
    simp [write, hlen, hb]
  · intro hb hp
    simp [write, hlen, hb, hp]
  · intro hb hp hexec hcm
    rcases hrw : execRows env.execErr batch.msgRows with ⟨fst, nE, ex⟩
    rw [hrw] at hexec
    simp only at hexec
    subst hexec
    simp [write, hlen, hb, hp, hcm, hrw]
  · intro hb hp hexec
    rcases hrw : execRows env.execErr batch.msgRows with ⟨fst, nE, ex⟩
    rw [hrw] at hexec
    simp only at hexec
    subst hexec
    simp [write, hlen, hb, hp, hrw]

/-- An environment whose `Begin` fails with a recognized connection-refused
error while a reconnect error is also present (and must be ignored). -/
def envBeginRefused : AttemptEnv :=
  { beginErr := some { msg := "connect: connection refused", canceled := false },
    prepareErr := none, execErr := fun _ => none, commitErr := none,
    reconnectErr := some { msg := "still refused", canceled := false } }

/-- Witness for the amended C9 at a concrete recognized begin failure. -/
theorem write_reconnect_sites_witness :
    (write envBeginRefused batchOneRow).err =
      some { msg := "connect: connection refused", canceled := false } ∧
    (write envBeginRefused batchOneRow).reconnectCalls =
      (if shouldReconnect { msg := "connect: connection refused", canceled := false } then 1 else 0) ∧
    (write envBeginRefused batchOneRow).reconnectIncs =
      (if shouldReconnect { msg := "connect: connection refused", canceled := false } then 1 else 0) :=
  (write_reconnect_sites envBeginRefused batchOneRow
    { msg := "connect: connection refused", canceled := false } (by decide)).1 rfl

/-- The characters of the literal part of the pattern
`LowCardinality\((.+)\)`. -/
def lcLit : List Char := "LowCardinality(".data

/-- Index of the last `)` inside the maximal newline-free prefix of `t`
(`.` in the pattern does not match a newline, and `(.+)` is greedy, so a
match starting here ends at exactly this `)`). -/
def lastCloseIdx : List Char → Option Nat
  | [] => none
  | c :: rest =>
    if c = '\n' then none
    else
      match lastCloseIdx rest with
      | some j => some (j + 1)
      | none => if c = ')' then some 0 else none

/-- Attempt to match `LowCardinality\((.+)\)` starting exactly at the head
of `s`: on success returns the captured group `$1` and the remainder of `s`
after the match. -/
def lcMatchAt (s : List Char) : Option (List Char × List Char) :=
  if isPreB lcLit s then
    let t := s.drop 15
    match lastCloseIdx t with
    | some j => if 1 ≤ j then some (t.take j, t.drop (j + 1)) else none
    | none => none
  else none

/-- `lowCardinalityRegexp.ReplaceAllString(typ, "$1")`: scan left to right;
at each position replace a leftmost match with its captured group and
continue after the match.  `fuel` bounds the scan (the caller passes the
input length, which suffices since every match consumes at least one
character). -/
def replaceLCGo : Nat → List Char → List Char
  | 0, s => s
  | fuel + 1, s =>
    match lcMatchAt s with
    | some (inner, remaining) => inner ++ replaceLCGo fuel remaining
    | none =>
      match s with
      | [] => []
      | c :: rest => c :: replaceLCGo fuel rest

/-- The type-normalization step applied to each discovered column type. -/
def replaceLC (s : String) : String :=
  String.mk (replaceLCGo s.data.length s.data)

/-- One row returned by the system-catalog query:
`(name, type, default_kind)`. -/
structure CatRow where
  name : String
  typ : String
  defaultKind : String
deriving DecidableEq

/-- `model.ColumnWithType` as built by `initSchema`. -/
structure ColumnWithType where
  name : String
  typ : String
  sourceName : String
deriving DecidableEq

/-- Modelled from the spec: `util.StringContains` (not under src/), the
membership test of a column name in the caller-supplied exclude list. -/
def stringContains (l : List String) (s : String) : Bool :=
  l.contains s

/-- The auto-discovery loop of `initSchema`: for each catalog row, strip the
low-cardinality wrapper from the type, then append the column to the
accumulated `Dims` unless its name is excluded or its default kind is
`MATERIALIZED`.  `src` is `util.GetSourceName` (an external name mapping,
kept abstract). -/
def initSchemaGo (excl : List String) (src : String → String) :
    List CatRow → List ColumnWithType → List ColumnWithType
  | [], dims => dims
  | r :: rest, dims =>
    let typ := replaceLC r.typ
    if !stringContains excl r.name && r.defaultKind != "MATERIALIZED" then
      initSchemaGo excl src rest
        (dims ++ [{ name := r.name, typ := typ, sourceName := src r.name }])
    else
      initSchemaGo excl src rest dims

/-- `c.Dims` as computed by `initSchema` in auto-discovery mode. -/
def initSchemaDims (rows : List CatRow) (excl : List String)
    (src : String → String) : List ColumnWithType :=
  initSchemaGo excl src rows []

theorem isPreB_self_append (p x : List Char) : isPreB p (p ++ x) = true := by
  induction p with
  | nil => rfl
  | cons a p ih => simp [isPreB, ih]

theorem lastCloseIdx_append_close (l : List Char)
    (h2 : ')' ∉ l) (h3 : '\n' ∉ l) :
    lastCloseIdx (l ++ [')']) = some l.length := by
  induction l with
  | nil => rfl
  | cons c l ih =>
    have hc3 : ¬ c = '\n' := fun h => h3 (h ▸ List.mem_cons_self c l)
    have ih' := ih (fun h => h2 (List.mem_cons_of_mem c h))
      (fun h => h3 (List.mem_cons_of_mem c h))
    simp [lastCloseIdx, hc3, ih']

theorem replaceLCGo_nil : ∀ fuel, replaceLCGo fuel [] = []
  | 0 => rfl
  | _ + 1 => rfl

theorem replaceLCGo_succ (fuel : Nat) (s : List Char) :
    replaceLCGo (fuel + 1) s =
      match lcMatchAt s with
      | some (inner, remaining) => inner ++ replaceLCGo fuel remaining
      | none =>
        match s with
        | [] => []
        | c :: rest => c :: replaceLCGo fuel rest := rfl

theorem lcMatchAt_wrapped (y : List Char) (h1 : y ≠ [])
    (h2 : ')' ∉ y) (h3 : '\n' ∉ y) :
    lcMatchAt (lcLit ++ (y ++ [')'])) = some (y, []) := by
  have hpre : isPreB lcLit (lcLit ++ (y ++ [')'])) = true := isPreB_self_append _ _
  have hlen : lcLit.length = 15 := rfl
  have hdrop : (lcLit ++ (y ++ [')'])).drop 15 = y ++ [')'] := by
    rw [← hlen, List.drop_left]
  have hlast : lastCloseIdx (y ++ [')']) = some y.length :=
    lastCloseIdx_append_close y h2 h3
  have hj : 1 ≤ y.length := List.length_pos.mpr h1
  have htake : (y ++ [')']).take y.length = y := List.take_left y [')']
  have hdrop2 : (y ++ [')']).drop (y.length + 1) = [] :=
    List.drop_eq_nil_of_le (by simp)
  simp [lcMatchAt, hpre, hdrop, hlast, hj, htake, hdrop2]

/-- The regex substitution strips one `LowCardinality(...)` wrapper down to
its inner type, for any inner type free of `)` and newline characters. -/
theorem replaceLC_strips (inner : String) (h1 : inner.data ≠ [])
    (h2 : ')' ∉ inner.data) (h3 : '\n' ∉ inner.data) :
    replaceLC ("LowCardinality(" ++ inner ++ ")") = inner := by
  have hdata : ("LowCardinality(" ++ inner ++ ")").data =
      lcLit ++ (inner.data ++ [')']) := by
    rw [String.data_append, String.data_append, List.append_assoc]
    rfl
  have h15 : lcLit.length = 15 := rfl
  have hN : (lcLit ++ (inner.data ++ [')'])).length =
      (inner.data.length + 15) + 1 := by
    rw [List.length_append, List.length_append, h15]
    simp only [List.length_singleton]
    omega
  have hm := lcMatchAt_wrapped inner.data h1 h2 h3
  unfold replaceLC
  rw [hdata, hN, replaceLCGo_succ, hm]
  simp only [replaceLCGo_nil, List.append_nil]

theorem initSchemaGo_eq (excl : List String) (src : String → String) :
    ∀ (rows : List CatRow) (dims : List ColumnWithType),
      initSchemaGo excl src rows dims =
        dims ++ (rows.filter
            (fun r => !stringContains excl r.name && r.defaultKind != "MATERIALIZED")).map
          (fun r => { name := r.name, typ := replaceLC r.typ, sourceName := src r.name }) := by
  intro rows
  induction rows with
  | nil => intro dims; simp [initSchemaGo]
  | cons r rest ih =>
    intro dims
    by_cases hc : (!stringContains excl r.name && r.defaultKind != "MATERIALIZED") = true
    · simp [initSchemaGo, hc, ih, List.filter_cons, List.append_assoc]
    · simp [initSchemaGo, hc, ih, List.filter_cons]

/-- C7: in auto-discovery mode the resolved descriptor list is exactly the
catalog rows, in catalog order, with each type passed through the
low-cardinality strip, keeping a column iff its name is not excluded and its
default kind is not `MATERIALIZED`; and the strip turns
`LowCardinality(inner)` into `inner` for any parenthesis- and newline-free
inner type. -/
theorem initSchema_filters_and_strips (rows : List CatRow) (excl : List String)
    (src : String → String) (inner : String) (h1 : inner.data ≠ [])
    (h2 : ')' ∉ inner.data) (h3 : '\n' ∉ inner.data) :
    initSchemaDims rows excl src =
      (rows.filter
          (fun r => !stringContains excl r.name && r.defaultKind != "MATERIALIZED")).map
        (fun r => { name := r.name, typ := replaceLC r.typ, sourceName := src r.name }) ∧
    replaceLC ("LowCardinality(" ++ inner ++ ")") = inner := by
  constructor
  · simpa using initSchemaGo_eq excl src rows []
  · exact replaceLC_strips inner h1 h2 h3

/-- The catalog rows of the end-to-end scenario in the spec. -/
def exRows : List CatRow :=
  [{ name := "id", typ := "Int32", defaultKind := "" },
   { name := "name", typ := "String", defaultKind := "" },
   { name := "tags", typ := "LowCardinality(String)", defaultKind := "" },
   { name := "computed_col", typ := "Int64", defaultKind := "MATERIALIZED" }]

/-- Witness for C7 at the spec's end-to-end scenario. -/
theorem initSchema_filters_and_strips_witness :
    initSchemaDims exRows ["name"] (fun s => s) =
      (exRows.filter
          (fun r => !stringContains ["name"] r.name && r.defaultKind != "MATERIALIZED")).map
        (fun r => { name := r.name, typ := replaceLC r.typ, sourceName := (fun s => s) r.name }) ∧
    replaceLC ("LowCardinality(" ++ "String" ++ ")") = "String" :=
  initSchema_filters_and_strips exRows ["name"] (fun s => s) "String"
    (by decide) (by decide) (by decide)

/-- `c.dms`: the loop collecting the resolved column names, in order. -/
def buildDms (dims : List ColumnWithType) : List String :=
  dims.foldl (fun acc d => acc ++ [d.name]) []

/-- `params`: `make([]string, len(c.Dims))` filled with `"?"`. -/
def buildParams (n : Nat) : List String :=
  List.replicate n "?"

/-- `c.prepareSQL` as assembled by `initSchema`. -/
def prepareSQLOf (db table : String) (dims : List ColumnWithType) : String :=
  "INSERT INTO " ++ db ++ "." ++ table ++ " (" ++
    String.intercalate "," (buildDms dims) ++ ") " ++
    "VALUES (" ++ String.intercalate "," (buildParams dims.length) ++ ")"

theorem foldl_append_names :
    ∀ (dims : List ColumnWithType) (acc : List String),
      dims.foldl (fun acc d => acc ++ [d.name]) acc =
        acc ++ dims.map (fun d => d.name) := by
  intro dims
  induction dims with
  | nil => intro acc; simp
  | cons d rest ih => intro acc; simp [List.foldl_cons, ih]

theorem buildDms_eq (dims : List ColumnWithType) :
    buildDms dims = dims.map (fun d => d.name) := by
  simpa using foldl_append_names dims []

/-- C8: the generated insert statement is exactly
`INSERT INTO <db>.<table> (<col1,...,colN>) VALUES (<?,...,?>)` with the `N`
resolved column names in resolved order and exactly one `?` placeholder per
resolved column. -/
theorem prepareSQL_format (db table : String) (dims : List ColumnWithType) :
    prepareSQLOf db table dims =
      "INSERT INTO " ++ db ++ "." ++ table ++ " (" ++
        String.intercalate "," (dims.map (fun d => d.name)) ++ ") VALUES (" ++
        String.intercalate "," (List.replicate dims.length "?") ++ ")" := by
  have key : ∀ y : String, ") " ++ ("VALUES (" ++ y) = ") VALUES (" ++ y := by
    intro y
    rw [← String.append_assoc]
    rfl
  simp only [prepareSQLOf, buildDms_eq, buildParams, String.append_assoc, key]

end Output
